import Mathlib

/-!
Verification of the `seccomp` crate (src/src/lib.rs), a high-level wrapper
around the external libseccomp facility.  The wrapper's pure data model
(`Op`, `Action`, `Compare`, `Cmp`, `Rule`) is embedded directly; the
external facility boundary (spec section 6) is embedded as opaque code
types plus an explicit trace of facility calls, with the facility's return
values supplied as parameters of each fallible operation.
-/

namespace Seccomp

/-- Comparison operators (`enum Op` in src/src/lib.rs). -/
inductive Op where
  | Ne
  | Lt
  | Le
  | Eq
  | Ge
  | Gt
  | MaskedEq
deriving Repr, DecidableEq

/-- The facility's comparison-operator codes (`scmp_compare`, the `SCMP_CMP_*`
constants of the external facility interface, spec section 6); opaque at this
boundary — one distinct code per constant. -/
inductive ScmpCompare where
  | SCMP_CMP_NE
  | SCMP_CMP_LT
  | SCMP_CMP_LE
  | SCMP_CMP_EQ
  | SCMP_CMP_GE
  | SCMP_CMP_GT
  | SCMP_CMP_MASKED_EQ
deriving Repr, DecidableEq

/-- `impl Into<scmp_compare> for Op` (src/src/lib.rs:60-72): exhaustive match,
one primitive code per variant. -/
def Op.into : Op → ScmpCompare
  | .Ne => .SCMP_CMP_NE
  | .Lt => .SCMP_CMP_LT
  | .Le => .SCMP_CMP_LE
  | .Eq => .SCMP_CMP_EQ
  | .Ge => .SCMP_CMP_GE
  | .Gt => .SCMP_CMP_GT
  | .MaskedEq => .SCMP_CMP_MASKED_EQ

/-- Seccomp actions (`enum Action` in src/src/lib.rs).  `Errno` carries a
Rust `i32` (modelled as `Int`, cast at the encoding boundary), `Trace` a
`u32` (modelled as `Nat`). -/
inductive Action where
  | Allow
  | Kill
  | Trap
  | Errno (x : Int)
  | Trace (x : Nat)
deriving Repr, DecidableEq

/-- Rust's `x as u32` applied to an `i32` value: reduction modulo `2^32`
into `[0, 2^32)`. -/
def u32_of_i32 (x : Int) : Nat :=
  (x % (2 : Int) ^ 32).toNat

/-- The facility's primitive action codes (`SCMP_ACT_*`, spec section 6).
The spec treats the numeric encoding as opaque and owned by the facility, so
the codes are modelled as one distinct constructor per constant, the
parameterised constants carrying their `u32` payload. -/
inductive ActionCode where
  | allow
  | kill
  | trap
  | errno (x : Nat)
  | trace (x : Nat)
deriving Repr, DecidableEq

/-- `impl Into<libc::uint32_t> for Action` (src/src/lib.rs:88-98): exhaustive
match; `Errno(x)` passes `x as u32` to `SCMP_ACT_ERRNO`. -/
def Action.into : Action → ActionCode
  | .Allow => .allow
  | .Kill => .kill
  | .Trap => .trap
  | .Errno x => .errno (u32_of_i32 x)
  | .Trace x => .trace x

/-- `scmp_arg_cmp` (`pub type Cmp` in src/src/lib.rs:38): the fixed-size
comparison record of the wire contract, fields declared in the contract's
order {argument index, operator code, primary datum, secondary datum}. -/
structure Cmp where
  arg : Nat
  op : ScmpCompare
  datum_a : Nat
  datum_b : Nat
deriving Repr, DecidableEq

/-- Comparison definition builder (`struct Compare` in src/src/lib.rs:101-106). -/
structure Compare where
  arg : Nat
  op : Option Op
  datum_a : Option Nat
  datum_b : Option Nat
deriving Repr, DecidableEq

/-- `Compare::arg` (src/src/lib.rs:110-112): builder entry point from an
argument number (named `ofArg` here because `Compare.arg` is the field
projection). -/
def Compare.ofArg (arg_num : Nat) : Compare :=
  { arg := arg_num, op := none, datum_a := none, datum_b := none }

/-- `Compare::using` (src/src/lib.rs:115-118). -/
def Compare.using (c : Compare) (op : Op) : Compare :=
  { c with op := some op }

/-- `Compare::with` (src/src/lib.rs:121-124) (`with` is a Lean keyword, so
the datum-setting builder step is named `withDatum`). -/
def Compare.withDatum (c : Compare) (datum : Nat) : Compare :=
  { c with datum_a := some datum }

/-- `Compare::and` (src/src/lib.rs:127-130). -/
def Compare.and (c : Compare) (datum : Nat) : Compare :=
  { c with datum_b := some datum }

/-- `Compare::build` (src/src/lib.rs:135-146): yields a `Cmp` exactly when
both operator and primary datum are present; the secondary datum defaults to
0 (`unwrap_or(0)`). -/
def Compare.build (c : Compare) : Option Cmp :=
  match c.op, c.datum_a with
  | some op, some da =>
      some { arg := c.arg, op := op.into, datum_a := da, datum_b := c.datum_b.getD 0 }
  | _, _ => none

/-- Seccomp rule (`struct Rule` in src/src/lib.rs:151-155).  `syscall_nr` is
a Rust `usize`, modelled as `Nat` (the `as i32` cast happens at the facility
boundary in `add_rule`). -/
structure Rule where
  action : Action
  syscall_nr : Nat
  comparators : List Cmp
deriving Repr, DecidableEq

/-- `Rule::new` (src/src/lib.rs:159-165): a rule starts with exactly the one
supplied comparison. -/
def Rule.new (syscall_nr : Nat) (cmp : Cmp) (action : Action) : Rule :=
  { action := action, syscall_nr := syscall_nr, comparators := [cmp] }

/-- `Rule::add_comparison` (src/src/lib.rs:169-171): appends one comparison
(`Vec::push`). -/
def Rule.add_comparison (r : Rule) (cmp : Cmp) : Rule :=
  { r with comparators := r.comparators ++ [cmp] }

/-- Appending a whole sequence of comparisons one `add_comparison` call at a
time (the iterated use of the public append operation). -/
def Rule.add_comparisons (r : Rule) (cmps : List Cmp) : Rule :=
  cmps.foldl Rule.add_comparison r

/-- Error type (`struct SeccompError` in src/src/lib.rs:176-178): a plain
human-readable message, no structured kind. -/
structure SeccompError where
  msg : String
deriving Repr, DecidableEq

/-- `SeccompError::new` (src/src/lib.rs:181-185). -/
def SeccompError.new (msg : String) : SeccompError :=
  { msg := msg }

/-- Debug rendering of `scmp_compare` values (Rust `{:?}` via the derived
`Debug` of the facility interface type prints the constant's name). -/
def ScmpCompare.debugFmt : ScmpCompare → String
  | .SCMP_CMP_NE => "SCMP_CMP_NE"
  | .SCMP_CMP_LT => "SCMP_CMP_LT"
  | .SCMP_CMP_LE => "SCMP_CMP_LE"
  | .SCMP_CMP_EQ => "SCMP_CMP_EQ"
  | .SCMP_CMP_GE => "SCMP_CMP_GE"
  | .SCMP_CMP_GT => "SCMP_CMP_GT"
  | .SCMP_CMP_MASKED_EQ => "SCMP_CMP_MASKED_EQ"

/-- Debug rendering of `Action` values (Rust `{:?}` via `#[derive(Debug)]`
on `enum Action`, src/src/lib.rs:76). -/
def Action.debugFmt : Action → String
  | .Allow => "Allow"
  | .Kill => "Kill"
  | .Trap => "Trap"
  | .Errno x => "Errno(" ++ toString x ++ ")"
  | .Trace x => "Trace(" ++ toString x ++ ")"

/-- Debug rendering of one `scmp_arg_cmp` record (Rust `{:?}` via the derived
`Debug` of the facility interface struct). -/
def Cmp.debugFmt (c : Cmp) : String :=
  "scmp_arg_cmp \x7b arg: " ++ toString c.arg ++ ", op: " ++ c.op.debugFmt
    ++ ", datum_a: " ++ toString c.datum_a ++ ", datum_b: " ++ toString c.datum_b ++ " \x7d"

/-- Debug rendering of a `Vec<Cmp>` (Rust `{:?}` list format). -/
def cmpListDebugFmt (cs : List Cmp) : String :=
  "[" ++ String.intercalate ", " (cs.map Cmp.debugFmt) ++ "]"

/-- Debug rendering of `Rule` values (Rust `{:?}` via `#[derive(Debug)]` on
`struct Rule`, src/src/lib.rs:150): field names and values in declaration
order. -/
def Rule.debugFmt (r : Rule) : String :=
  "Rule \x7b action: " ++ r.action.debugFmt ++ ", syscall_nr: " ++ toString r.syscall_nr
    ++ ", comparators: " ++ cmpListDebugFmt r.comparators ++ " \x7d"

/-- Opaque non-null native filter handles.  A nullable handle (the return of
the facility's `init`) is an `Option Handle`, `none` standing for null. -/
abbrev Handle := Nat

/-- One call into the external facility, as named in spec section 6 and made
through `seccomp_sys` in the source.  The trace of these calls is the
observable boundary behaviour of the wrapper. -/
inductive FacilityCall where
  | seccomp_init (def_action : ActionCode)
  | seccomp_rule_add_array (handle : Handle) (action : ActionCode) (syscall : Int)
      (cmp_count : Nat) (cmps : List Cmp)
  | seccomp_load (handle : Handle)
  | seccomp_release (handle : Handle)
deriving Repr, DecidableEq

/-- Rust's `n as i32` applied to a `usize` value: reduction modulo `2^32`
then two's-complement reinterpretation into `[-2^31, 2^31)`. -/
def i32_of_usize (n : Nat) : Int :=
  if n % 2 ^ 32 < 2 ^ 31 then ((n % 2 ^ 32 : Nat) : Int)
  else ((n % 2 ^ 32 : Nat) : Int) - 2 ^ 32

/-- Rust's `n as u32` applied to a `usize` value: reduction modulo `2^32`. -/
def u32_of_usize (n : Nat) : Nat :=
  n % 2 ^ 32

/-- Seccomp context (`struct Context` in src/src/lib.rs:201-203): the
exclusively owned native filter handle. -/
structure Context where
  int : Handle
deriving Repr, DecidableEq

/-- `Context::default` (src/src/lib.rs:207-214).  `init_result` is the handle
returned by the facility's single `seccomp_init` call (`none` = null).  The
result pairs the Rust `Result` with the emitted facility-call trace. -/
def Context.default (def_action : Action) (init_result : Option Handle) :
    Except SeccompError Context × List FacilityCall :=
  (match init_result with
    | none => Except.error (SeccompError.new "initialization failed")
    | some h => Except.ok { int := h },
   [FacilityCall.seccomp_init def_action.into])

/-- Outcome of one `Context::add_rule` call: the Rust `Result`, the post-call
states of the two values the caller supplied (`&mut self` and the by-value
`rule`, threaded through as explicit state; the source body reads both and
writes neither), and the emitted facility-call trace. -/
structure AddRuleResult where
  result : Except SeccompError Unit
  ctx : Context
  rule : Rule
  calls : List FacilityCall
deriving Repr

/-- `Context::add_rule` (src/src/lib.rs:217-228): one
`seccomp_rule_add_array` call forwarding the handle, `rule.action.into()`,
`rule.syscall_nr as i32`, `rule.comparators.len() as u32` and the comparator
array; `res` is the facility's return value for that call, nonzero meaning
failure. -/
def Context.add_rule (ctx : Context) (rule : Rule) (res : Int) : AddRuleResult :=
  let call := FacilityCall.seccomp_rule_add_array ctx.int rule.action.into
      (i32_of_usize rule.syscall_nr) (u32_of_usize rule.comparators.length) rule.comparators
  if res ≠ 0 then
    { result := Except.error (SeccompError.new ("failed to add rule " ++ rule.debugFmt)),
      ctx := ctx, rule := rule, calls := [call] }
  else
    { result := Except.ok (), ctx := ctx, rule := rule, calls := [call] }

/-- `Context::load` (src/src/lib.rs:231-238): one `seccomp_load` call on the
held handle (`&self`, so the wrapper state cannot change); `res` is the
facility's return value, nonzero meaning failure. -/
def Context.load (ctx : Context) (res : Int) : Except SeccompError Unit × List FacilityCall :=
  (if res ≠ 0 then Except.error (SeccompError.new "failed to load filter into the kernel")
   else Except.ok (),
   [FacilityCall.seccomp_load ctx.int])

/-- `impl Drop for Context` (src/src/lib.rs:241-245): the destructor makes
exactly one `seccomp_release` call on the held handle. -/
def Context.drop (ctx : Context) : List FacilityCall :=
  [FacilityCall.seccomp_release ctx.int]

/-- One public operation a caller may perform on a live context, paired with
the facility's return value for the one facility call it makes. -/
inductive ContextOp where
  | add_rule (rule : Rule) (res : Int)
  | load (res : Int)
deriving Repr, DecidableEq

/-- Runs one public operation on a live context: the post-call context state
and the emitted facility-call trace. -/
def Context.runOp (ctx : Context) : ContextOp → Context × List FacilityCall
  | .add_rule rule res => ((ctx.add_rule rule res).ctx, (ctx.add_rule rule res).calls)
  | .load res => (ctx, (ctx.load res).2)

/-- Runs a sequence of public operations on a live context, threading the
context state and concatenating the emitted facility-call traces. -/
def Context.runOps (ctx : Context) : List ContextOp → Context × List FacilityCall
  | [] => (ctx, [])
  | op :: rest =>
    (((ctx.runOp op).1.runOps rest).1,
     (ctx.runOp op).2 ++ ((ctx.runOp op).1.runOps rest).2)

/-- The full facility-call trace of one `Context` lifetime: creation (one
`seccomp_init`), then — only when creation succeeded — the caller's
operations on the live context followed by the automatic `Drop`. -/
def contextLifetime (def_action : Action) (init_result : Option Handle)
    (ops : List ContextOp) : List FacilityCall :=
  match Context.default def_action init_result with
  | (Except.error _, calls) => calls
  | (Except.ok ctx, calls) => calls ++ (ctx.runOps ops).2 ++ ctx.drop

/-- Recognises `seccomp_release` events in a facility-call trace. -/
def FacilityCall.isRelease : FacilityCall → Bool
  | .seccomp_release _ => true
  | _ => false

/-! Helper lemmas about the embedded operations. -/

theorem add_rule_ctx_eq (ctx : Context) (r : Rule) (res : Int) :
    (ctx.add_rule r res).ctx = ctx := by
  unfold Context.add_rule
  split <;> rfl

theorem add_rule_rule_eq (ctx : Context) (r : Rule) (res : Int) :
    (ctx.add_rule r res).rule = r := by
  unfold Context.add_rule
  split <;> rfl

theorem add_rule_calls_eq (ctx : Context) (r : Rule) (res : Int) :
    (ctx.add_rule r res).calls =
      [FacilityCall.seccomp_rule_add_array ctx.int r.action.into
        (i32_of_usize r.syscall_nr) (u32_of_usize r.comparators.length) r.comparators] := by
  unfold Context.add_rule
  split <;> rfl

theorem add_rule_result_err (ctx : Context) (r : Rule) (res : Int) (h : res ≠ 0) :
    (ctx.add_rule r res).result =
      Except.error (SeccompError.new ("failed to add rule " ++ r.debugFmt)) := by
  unfold Context.add_rule
  simp [h]

theorem runOps_fst (ctx : Context) (ops : List ContextOp) :
    (ctx.runOps ops).1 = ctx := by
  induction ops generalizing ctx with
  | nil => rfl
  | cons op rest ih =>
    have hop : (ctx.runOp op).1 = ctx := by
      cases op with
      | add_rule rule res => exact add_rule_ctx_eq ctx rule res
      | load res => rfl
    simp [Context.runOps, hop, ih]

theorem runOps_cons (ctx : Context) (op : ContextOp) (ops : List ContextOp) :
    ctx.runOps (op :: ops) =
      ((ctx.runOps ops).1, (ctx.runOp op).2 ++ (ctx.runOps ops).2) := by
  have hop : (ctx.runOp op).1 = ctx := by
    cases op with
    | add_rule rule res => exact add_rule_ctx_eq ctx rule res
    | load res => rfl
  simp [Context.runOps, hop]

theorem runOps_no_release (ctx : Context) (ops : List ContextOp) :
    ((ctx.runOps ops).2).filter FacilityCall.isRelease = [] := by
  induction ops generalizing ctx with
  | nil => rfl
  | cons op rest ih =>
    have hop : ((ctx.runOp op).2).filter FacilityCall.isRelease = [] := by
      cases op with
      | add_rule rule res =>
          simp [Context.runOp, add_rule_calls_eq, FacilityCall.isRelease]
      | load res =>
          simp [Context.runOp, Context.load, FacilityCall.isRelease]
    simp [Context.runOps, List.filter_append, hop, ih]

/-! The claims. -/

/-- C2: `Compare::build` yields a `Cmp` if and only if both an operator and a
primary datum were supplied; otherwise it yields `none` (absence, not an
error), and any `Cmp` it does yield is fully determined by the builder's
fields — never partially filled. -/
theorem build_iff_operator_and_datum (c : Compare) :
    ((c.build).isSome ↔ (c.op.isSome ∧ c.datum_a.isSome)) ∧
    (∀ cmp : Cmp, c.build = some cmp →
      ∃ o : Op, ∃ da : Nat, c.op = some o ∧ c.datum_a = some da ∧
        cmp = { arg := c.arg, op := o.into, datum_a := da, datum_b := c.datum_b.getD 0 }) := by
  constructor
  · unfold Compare.build
    cases hop : c.op <;> cases hda : c.datum_a <;> simp
  · intro cmp h
    unfold Compare.build at h
    cases hop : c.op <;> cases hda : c.datum_a <;> rw [hop, hda] at h <;> simp at h
    exact ⟨_, _, rfl, rfl, h.symm⟩

/-- C2 witness: a builder with operator and primary datum supplied builds. -/
theorem build_iff_operator_and_datum_witness :
    ((((Compare.ofArg 0).using Op.Eq).withDatum 1000).build).isSome :=
  (build_iff_operator_and_datum (((Compare.ofArg 0).using Op.Eq).withDatum 1000)).1.mpr
    (by decide)

/-- C8: a `Cmp` built without an explicit secondary datum has secondary
datum 0; in particular masked-equal with a primary datum and no secondary
datum builds, yielding mask 0 — no cross-field validation rejects it. -/
theorem build_secondary_datum_defaults_zero (c : Compare) (hb : c.datum_b = none) :
    (∀ cmp : Cmp, c.build = some cmp → cmp.datum_b = 0) ∧
    (∀ i d : Nat, (((Compare.ofArg i).using Op.MaskedEq).withDatum d).build =
      some { arg := i, op := ScmpCompare.SCMP_CMP_MASKED_EQ, datum_a := d, datum_b := 0 }) := by
  constructor
  · intro cmp h
    unfold Compare.build at h
    cases hop : c.op <;> cases hda : c.datum_a <;> rw [hop, hda] at h <;> simp at h
    rw [← h, hb]
    rfl
  · intro i d
    rfl

/-- C8 witness: the spec's scenario — masked-equal with primary datum 0xFF
and no secondary datum resolves to mask 0. -/
theorem build_secondary_datum_defaults_zero_witness :
    (((Compare.ofArg 0).using Op.MaskedEq).withDatum 255).build =
      some { arg := 0, op := ScmpCompare.SCMP_CMP_MASKED_EQ, datum_a := 255, datum_b := 0 } :=
  (build_secondary_datum_defaults_zero (((Compare.ofArg 0).using Op.MaskedEq).withDatum 255)
    rfl).2 0 255

theorem add_comparisons_comparators (cs : List Cmp) (r : Rule) :
    (r.add_comparisons cs).comparators = r.comparators ++ cs := by
  induction cs generalizing r with
  | nil => simp [Rule.add_comparisons]
  | cons c rest ih =>
    show ((r.add_comparison c).add_comparisons rest).comparators = _
    rw [ih]
    simp [Rule.add_comparison]

/-- C9: a rule built by `Rule::new` starts with exactly the one supplied
comparison; appending N more via `add_comparison` yields a sequence of
length N + 1 with the original first and the appended ones following in
append order; each append grows the sequence by exactly one at the end. -/
theorem rule_comparisons_append (nr : Nat) (cmp : Cmp) (a : Action) (cs : List Cmp) :
    ((Rule.new nr cmp a).comparators = [cmp]) ∧
    (((Rule.new nr cmp a).add_comparisons cs).comparators = cmp :: cs) ∧
    (((Rule.new nr cmp a).add_comparisons cs).comparators.length = cs.length + 1) ∧
    (∀ r : Rule, ∀ c : Cmp, (r.add_comparison c).comparators = r.comparators ++ [c]) := by
  refine ⟨rfl, ?_, ?_, fun r c => rfl⟩
  · rw [add_comparisons_comparators]
    rfl
  · rw [add_comparisons_comparators]
    simp [Rule.new]

/-- C5: `Context::default` fails exactly when the facility's single `init`
call returns null, carrying a human-readable message; on success the
returned context holds the handle that init call produced, and the trace is
exactly one `seccomp_init` — no retry. -/
theorem default_init_contract (a : Action) (r : Option Handle) :
    ((∃ ctx : Context, (Context.default a r).1 = Except.ok ctx) ↔ r.isSome) ∧
    (r = none →
      (Context.default a r).1 = Except.error (SeccompError.new "initialization failed")) ∧
    (∀ h : Handle, r = some h → (Context.default a r).1 = Except.ok { int := h }) ∧
    ((Context.default a r).2 = [FacilityCall.seccomp_init a.into]) := by
  refine ⟨?_, ?_, ?_, rfl⟩
  · cases r with
    | none => simp [Context.default]
    | some h => exact iff_of_true ⟨{ int := h }, rfl⟩ rfl
  · intro hr
    rw [hr]
    rfl
  · intro h hr
    rw [hr]
    rfl

/-- C5 witness: a non-null init handle yields a context holding it; a null
one yields the failure. -/
theorem default_init_contract_witness :
    (Context.default Action.Allow (some 1)).1 = Except.ok { int := 1 } ∧
    (Context.default Action.Allow none).1 =
      Except.error (SeccompError.new "initialization failed") :=
  ⟨(default_init_contract Action.Allow (some 1)).2.2.1 1 rfl,
   (default_init_contract Action.Allow none).2.1 rfl⟩

/-- C7: `Context::load` succeeds exactly when the facility's `seccomp_load`
call returns zero; on failure it returns an error value and the wrapper
state is unchanged — the context stays Active and later operations behave
exactly as they would without the failed load. -/
theorem load_contract (ctx : Context) (res : Int) (ops : List ContextOp) :
    ((ctx.load res).1 = Except.ok () ↔ res = 0) ∧
    (res ≠ 0 → (ctx.load res).1 =
      Except.error (SeccompError.new "failed to load filter into the kernel")) ∧
    ((ctx.load res).2 = [FacilityCall.seccomp_load ctx.int]) ∧
    (ctx.runOps (ContextOp.load res :: ops) =
      (ctx, (ctx.load res).2 ++ (ctx.runOps ops).2)) := by
  refine ⟨?_, ?_, rfl, ?_⟩
  · unfold Context.load
    by_cases h : res = 0 <;> simp [h]
  · intro h
    unfold Context.load
    simp [h]
  · rw [runOps_cons, runOps_fst]
    rfl

/-- C7 witness: a nonzero load result is reported as the error value; a zero
one succeeds. -/
theorem load_contract_witness :
    ((Context.mk 7).load 1).1 =
      Except.error (SeccompError.new "failed to load filter into the kernel") ∧
    ((Context.mk 7).load 0).1 = Except.ok () :=
  ⟨(load_contract (Context.mk 7) 1 []).2.1 (by decide),
   (load_contract (Context.mk 7) 0 []).1.mpr rfl⟩

/-- C3: `add_rule` has no observable effect on the supplied `Rule` value (or
on the wrapper state): threading both through the call returns them
unchanged, success or failure alike, and reusing the returned rule behaves
exactly like using the original. -/
theorem add_rule_rule_frame (ctx : Context) (r : Rule) (res : Int) :
    ((ctx.add_rule r res).rule = r) ∧
    ((ctx.add_rule r res).ctx = ctx) ∧
    (∀ res2 : Int, ((ctx.add_rule r res).ctx).add_rule ((ctx.add_rule r res).rule) res2 =
      ctx.add_rule r res2) := by
  refine ⟨add_rule_rule_eq ctx r res, add_rule_ctx_eq ctx r res, fun res2 => ?_⟩
  rw [add_rule_rule_eq, add_rule_ctx_eq]

/-- C4: `add_rule` makes a single facility call forwarding the handle, the
rule's action encoding, its syscall number (as the wire's signed 32-bit
value, the identity on `[0, 2^31)`), its comparator count (the sequence
length as the wire's unsigned 32-bit value, the identity below `2^32`) and
the comparison sequence itself in stored order; each forwarded record is
exactly its four fields {arg, op, datum_a, datum_b} in declaration order. -/
theorem add_rule_forwards_payload (ctx : Context) (r : Rule) (res : Int) :
    ((ctx.add_rule r res).calls =
      [FacilityCall.seccomp_rule_add_array ctx.int r.action.into
        (i32_of_usize r.syscall_nr) (u32_of_usize r.comparators.length) r.comparators]) ∧
    (r.syscall_nr < 2 ^ 31 → i32_of_usize r.syscall_nr = (r.syscall_nr : Int)) ∧
    (r.comparators.length < 2 ^ 32 → u32_of_usize r.comparators.length = r.comparators.length) ∧
    (∀ c : Cmp, c = { arg := c.arg, op := c.op, datum_a := c.datum_a, datum_b := c.datum_b }) := by
  refine ⟨add_rule_calls_eq ctx r res, ?_, ?_, fun c => rfl⟩
  · intro h
    unfold i32_of_usize
    split <;> omega
  · intro h
    exact Nat.mod_eq_of_lt h

/-- C4 witness: for the documented example rule (syscall 105, one
comparator) the forwarded syscall and count are the stored values. -/
theorem add_rule_forwards_payload_witness :
    i32_of_usize 105 = (105 : Int) ∧ u32_of_usize 1 = 1 := by
  have h := add_rule_forwards_payload { int := 1 }
    (Rule.new 105 { arg := 0, op := ScmpCompare.SCMP_CMP_EQ, datum_a := 1000, datum_b := 0 }
      Action.Allow) 0
  exact ⟨h.2.1 (by decide), h.2.2.1 (by decide)⟩

theorem i32_of_usize_eq_self_iff (m : Nat) :
    i32_of_usize m = (m : Int) ↔ m ≤ 2 ^ 31 - 1 := by
  unfold i32_of_usize
  split <;> omega

/-- C10: for syscall numbers above `2^31 - 1`, `add_rule` forwards the
`usize` value reduced modulo `2^32` reinterpreted as a signed 32-bit integer
(congruent modulo `2^32`, in `[-2^31, 2^31)`), which differs from the stored
number and is negative for stored values in `[2^31, 2^32)`; the forwarded
value equals the stored one exactly for stored values in `[0, 2^31 - 1]`. -/
theorem add_rule_syscall_cast (ctx : Context) (r : Rule) (res : Int)
    (h : 2 ^ 31 - 1 < r.syscall_nr) :
    ((ctx.add_rule r res).calls =
      [FacilityCall.seccomp_rule_add_array ctx.int r.action.into
        (i32_of_usize r.syscall_nr) (u32_of_usize r.comparators.length) r.comparators]) ∧
    (i32_of_usize r.syscall_nr ≠ (r.syscall_nr : Int)) ∧
    (i32_of_usize r.syscall_nr % 2 ^ 32 = (r.syscall_nr : Int) % 2 ^ 32) ∧
    (-(2 ^ 31) ≤ i32_of_usize r.syscall_nr ∧ i32_of_usize r.syscall_nr < 2 ^ 31) ∧
    (r.syscall_nr < 2 ^ 32 → i32_of_usize r.syscall_nr < 0) ∧
    (∀ m : Nat, i32_of_usize m = (m : Int) ↔ m ≤ 2 ^ 31 - 1) := by
  refine ⟨add_rule_calls_eq ctx r res, ?_, ?_, ?_, ?_, i32_of_usize_eq_self_iff⟩
  · intro hEq
    have := (i32_of_usize_eq_self_iff r.syscall_nr).mp hEq
    omega
  · unfold i32_of_usize
    split <;> omega
  · unfold i32_of_usize
    split <;> omega
  · intro hlt
    unfold i32_of_usize
    split <;> omega

/-- C10 witness: syscall number `2^31` is forwarded as `-2^31`, not as
itself. -/
theorem add_rule_syscall_cast_witness :
    i32_of_usize 2147483648 = -2147483648 ∧
    i32_of_usize 2147483648 ≠ (2147483648 : Int) := by
  have h := add_rule_syscall_cast { int := 1 }
    (Rule.new 2147483648 { arg := 0, op := ScmpCompare.SCMP_CMP_EQ, datum_a := 0, datum_b := 0 }
      Action.Allow) 0 (by decide)
  exact ⟨by decide, h.2.1⟩

theorem failure_msg_has_syscall_nr (r : Rule) :
    ∃ p q : String,
      "failed to add rule " ++ r.debugFmt = p ++ toString r.syscall_nr ++ q := by
  refine ⟨"failed to add rule " ++ "Rule \x7b action: " ++ r.action.debugFmt ++ ", syscall_nr: ",
    ", comparators: " ++ cmpListDebugFmt r.comparators ++ " \x7d", ?_⟩
  simp only [Rule.debugFmt, String.append_assoc]

theorem failure_msg_has_action (r : Rule) :
    ∃ p q : String,
      "failed to add rule " ++ r.debugFmt = p ++ r.action.debugFmt ++ q := by
  refine ⟨"failed to add rule " ++ "Rule \x7b action: ",
    ", syscall_nr: " ++ toString r.syscall_nr ++ ", comparators: "
      ++ cmpListDebugFmt r.comparators ++ " \x7d", ?_⟩
  simp only [Rule.debugFmt, String.append_assoc]

/-- C6: when the facility rejects a rule (nonzero return), `add_rule`
reports an error whose message carries the rule's syscall number and action,
the wrapper state is unchanged — the context stays Active and later
`add_rule`/`load` operations behave exactly as without the failed call — and
the failing call emitted exactly one facility call (its own `rule_add`), so
this layer rolls back or discards nothing. -/
theorem add_rule_failure_contract (ctx : Context) (r : Rule) (res : Int)
    (ops : List ContextOp) (h : res ≠ 0) :
    ((ctx.add_rule r res).result =
      Except.error (SeccompError.new ("failed to add rule " ++ r.debugFmt))) ∧
    (∃ p q : String,
      "failed to add rule " ++ r.debugFmt = p ++ toString r.syscall_nr ++ q) ∧
    (∃ p q : String,
      "failed to add rule " ++ r.debugFmt = p ++ r.action.debugFmt ++ q) ∧
    (ctx.runOps (ContextOp.add_rule r res :: ops) =
      (ctx, (ctx.add_rule r res).calls ++ (ctx.runOps ops).2)) ∧
    ((ctx.add_rule r res).calls =
      [FacilityCall.seccomp_rule_add_array ctx.int r.action.into
        (i32_of_usize r.syscall_nr) (u32_of_usize r.comparators.length) r.comparators]) := by
  refine ⟨add_rule_result_err ctx r res h, failure_msg_has_syscall_nr r,
    failure_msg_has_action r, ?_, add_rule_calls_eq ctx r res⟩
  rw [runOps_cons, runOps_fst]
  rfl

/-- C6 witness: a concrete rejected rule (facility returned -1) leaves the
message identifying syscall 105 and the Errno action, and the single emitted
call carries the rule's payload. -/
theorem add_rule_failure_contract_witness :
    ((Context.mk 1).add_rule
        (Rule.new 105 { arg := 0, op := ScmpCompare.SCMP_CMP_EQ, datum_a := 1000, datum_b := 0 }
          (Action.Errno 1)) (-1)).calls =
      [FacilityCall.seccomp_rule_add_array 1 (ActionCode.errno 1) 105 1
        [{ arg := 0, op := ScmpCompare.SCMP_CMP_EQ, datum_a := 1000, datum_b := 0 }]] :=
  ((add_rule_failure_contract (Context.mk 1)
    (Rule.new 105 { arg := 0, op := ScmpCompare.SCMP_CMP_EQ, datum_a := 1000, datum_b := 0 }
      (Action.Errno 1)) (-1) [] (by decide)).2.2.2.2).trans (by decide)

/-- C1: over the lifetime of every successfully created context — one `init`
call, any sequence of `add_rule`/`load` operations with any facility
responses, then the automatic drop — the facility's release is called
exactly once, on exactly the handle produced by `init`, and when creation
fails no release call happens at all (nothing was acquired, nothing leaks). -/
theorem context_releases_handle_exactly_once (a : Action) (h : Handle)
    (ops : List ContextOp) :
    (contextLifetime a (some h) ops =
      FacilityCall.seccomp_init a.into ::
        (((Context.mk h).runOps ops).2 ++ [FacilityCall.seccomp_release h])) ∧
    ((contextLifetime a (some h) ops).filter FacilityCall.isRelease =
      [FacilityCall.seccomp_release h]) ∧
    ((contextLifetime a none ops).filter FacilityCall.isRelease = []) := by
  have h1 : contextLifetime a (some h) ops =
      [FacilityCall.seccomp_init a.into] ++ ((Context.mk h).runOps ops).2
        ++ (Context.mk h).drop := rfl
  refine ⟨?_, ?_, rfl⟩
  · rw [h1]
    simp [Context.drop]
  · rw [h1]
    simp [List.filter_append, runOps_no_release, Context.drop, FacilityCall.isRelease]

end Seccomp
